import Mathlib

/-!
Verification of the Qbit wallet-backend synchronization core.

This file gives a shallow embedding, in Lean 4, of the wallet-backend
operations that the specification talks about: input lock timing and
balance partitioning, payment-ID validation, the daemon client's adaptive
batch sizing and connect/disconnect edge events, the wallet synchronizer's
block download loop with deferred reset/rewind, block dropping, and the
cancelled-transaction failure counter.  Machine integers are modelled as
Nat/Int (JavaScript numbers hold exact integers in the ranges involved),
JS Maps as association lists in insertion order, and each asynchronous
network call as an explicit response parameter.  Components whose
implementation is not part of the analysed sources (the
SynchronizationStatus store, the MAX_BLOCK_NUMBER constant, the
SubWallets balance fold) are modelled from the specification and marked
as such in their doc comments.
-/

set_option autoImplicit false

namespace QbitWallet

/-! ## Wallet error codes (WalletError.js) -/

/-- The subset of the WalletErrorCode enumeration exercised here. -/
inductive WalletErrorCode where
  | SUCCESS
  | PAYMENT_ID_WRONG_LENGTH
  | PAYMENT_ID_INVALID
  deriving DecidableEq

/-- A wallet error carries a stable numeric code (WalletError.js). -/
structure WalletError where
  errorCode : WalletErrorCode
  deriving DecidableEq

/-- The shared success value exported by WalletError.js. -/
def SUCCESS : WalletError := { errorCode := WalletErrorCode.SUCCESS }

/-! ## JS values and runtime type assertions (Assert.js) -/

/-- A JavaScript value, as far as the runtime type assertions inspect it. -/
inductive JSValue where
  | str (s : List Char)
  | num (n : Int)
  | bool (b : Bool)
  | undef
  deriving DecidableEq

/-- assertType from Assert.js: throws unless the verification function
accepts the value (allowUndefined is false for the callers modelled here). -/
def assertType (param : JSValue) (ok : JSValue → Bool) : Except (List Char) Unit :=
  if ok param then Except.ok () else Except.error [ 'E' ]

/-- assertString from Assert.js. -/
def assertString (param : JSValue) : Except (List Char) Unit :=
  assertType param (fun v => match v with | JSValue.str _ => true | _ => false)

/-- assertBoolean from Assert.js. -/
def assertBoolean (param : JSValue) : Except (List Char) Unit :=
  assertType param (fun v => match v with | JSValue.bool _ => true | _ => false)

/-! ## Payment-ID validation (ValidateParameters.js) -/

/-- A character accepted by the character class [a-zA-Z0-9]. -/
def isAlnumChar (c : Char) : Bool :=
  ('a' ≤ c && c ≤ 'z') || ('A' ≤ c && c ≤ 'Z') || ('0' ≤ c && c ≤ '9')

/-- Whether the regular expression /[a-zA-Z0-9]\x7b64\x7d/ (no anchors)
matches the string: some position starts a run of 64 alphanumerics. -/
def hasAlnumRun64 (s : List Char) : Bool :=
  (List.range (s.length + 1)).any fun i =>
    ((s.drop i).take 64).length = 64 && ((s.drop i).take 64).all isAlnumChar

/-- The body of validatePaymentID, after the runtime type assertions. -/
def validatePaymentIDChecked (paymentID : List Char) (allowEmptyString : Bool) :
    WalletError :=
  if paymentID = [] ∧ allowEmptyString = true then SUCCESS
  else if paymentID.length ≠ 64 then { errorCode := WalletErrorCode.PAYMENT_ID_WRONG_LENGTH }
  else if hasAlnumRun64 paymentID = false then { errorCode := WalletErrorCode.PAYMENT_ID_INVALID }
  else SUCCESS

/-- validatePaymentID from ValidateParameters.js: runtime type assertions
followed by the empty-string, length, and regular-expression checks. -/
def validatePaymentID (paymentID allowEmptyString : JSValue) :
    Except (List Char) WalletError := do
  assertString paymentID
  assertBoolean allowEmptyString
  match paymentID, allowEmptyString with
  | JSValue.str s, JSValue.bool allow => Except.ok (validatePaymentIDChecked s allow)
  | _, _ => Except.error [ 'E' ]

/-! ## Input unlock timing and balances (Utilities.js; balance per spec) -/

/-- Modelled from the spec: the Constants module is not among the analysed
sources; the specification states the MAX_BLOCK_NUMBER threshold as 2^32. -/
def MAX_BLOCK_NUMBER : Nat := 4294967296

/-- isInputUnlocked from Utilities.js.  unlock times at or above
MAX_BLOCK_NUMBER are wall-clock seconds, others are block heights
compared against currentHeight + 1. -/
def isInputUnlocked (unlockTime currentHeight nowSeconds : Nat) : Bool :=
  if unlockTime = 0 then true
  else if MAX_BLOCK_NUMBER ≤ unlockTime then decide (unlockTime ≤ nowSeconds)
  else decide (unlockTime ≤ currentHeight + 1)

/-- A transaction input, restricted to the fields the balance computation
reads (the full record per spec §3 also carries key data). -/
structure TransactionInput where
  keyImage : List Char
  amount : Nat
  blockHeight : Int
  spendHeight : Int
  unlockTime : Nat
  parentTransactionHash : List Char
  deriving DecidableEq

/-- Modelled from the spec: the SubWallets balance fold is not among the
analysed sources.  Per spec §4.4, for the unspent inputs in the filter, sum
the amounts of those passing isInputUnlocked into the unlocked balance and
the rest into the locked balance. -/
def getBalance (unspentInputs : List TransactionInput)
    (currentHeight nowSeconds : Nat) : Nat × Nat :=
  (((unspentInputs.filter fun i =>
        isInputUnlocked i.unlockTime currentHeight nowSeconds).map
      (fun i => i.amount)).sum,
   ((unspentInputs.filter fun i =>
        !(isInputUnlocked i.unlockTime currentHeight nowSeconds)).map
      (fun i => i.amount)).sum)

/-! ## General partition lemma for list sums -/

theorem sum_map_filter_add_sum_map_filter_not {α : Type} (p : α → Bool)
    (f : α → Nat) (l : List α) :
    ((l.filter p).map f).sum + ((l.filter fun a => !(p a)).map f).sum
      = (l.map f).sum := by
  induction l with
  | nil => rfl
  | cons a l ih =>
    by_cases h : p a = true
    · simp [List.filter_cons, h, ih.symm]
      omega
    · simp only [Bool.not_eq_true] at h
      simp [List.filter_cons, h, ih.symm]
      omega

/-- On a string of length exactly 64, the unanchored 64-run match succeeds
exactly when every character of the string is alphanumeric. -/
theorem hasAlnumRun64_length64 (s : List Char) (h : s.length = 64) :
    hasAlnumRun64 s = s.all isAlnumChar := by
  unfold hasAlnumRun64
  have htake : s.take 64 = s := List.take_of_length_le h.le
  cases hall : s.all isAlnumChar with
  | true =>
    apply List.any_eq_true.mpr
    refine ⟨0, by simp, ?_⟩
    simp [htake, h, hall]
  | false =>
    apply List.any_eq_false.mpr
    intro i hi
    by_cases hz : i = 0
    · subst hz
      simp [htake, h, hall]
    · have hlt : ((s.drop i).take 64).length < 64 := by
        simp only [List.length_take, List.length_drop, h]
        omega
      simp only [Bool.and_eq_true, decide_eq_true_eq]
      intro hc
      omega

/-- Claim C10: for every string paymentID and boolean allowEmptyString,
validatePaymentID never throws; it returns SUCCESS exactly for the empty
string when allowed and for strings of 64 alphanumeric characters
(the unanchored character class accepts non-hex letters), and
PAYMENT_ID_WRONG_LENGTH exactly for non-exempt strings whose length is
not 64. -/
theorem c10_validatePaymentID_characterisation (s : List Char) (allow : Bool) :
    ∃ r : WalletError,
      validatePaymentID (JSValue.str s) (JSValue.bool allow) = Except.ok r
      ∧ (r.errorCode = WalletErrorCode.PAYMENT_ID_WRONG_LENGTH
          ↔ (¬(s = [] ∧ allow = true) ∧ s.length ≠ 64))
      ∧ (r.errorCode = WalletErrorCode.SUCCESS
          ↔ ((s = [] ∧ allow = true)
              ∨ (s.length = 64 ∧ s.all isAlnumChar = true))) := by
  refine ⟨validatePaymentIDChecked s allow, rfl, ?_, ?_⟩
  · unfold validatePaymentIDChecked
    split_ifs with h1 h2 h3
    · simp [SUCCESS, h1]
    · simp [h1, h2]
    · have h64 : s.length = 64 := by omega
      have hall : s.all isAlnumChar = false := by
        rw [← hasAlnumRun64_length64 s h64]
        exact h3
      simp [h1, h2, hall]
    · have h64 : s.length = 64 := by omega
      have hall : s.all isAlnumChar = true := by
        rw [← hasAlnumRun64_length64 s h64]
        exact Bool.of_not_eq_false h3
      simp [SUCCESS, h1, h2, h64, hall]
  · unfold validatePaymentIDChecked
    split_ifs with h1 h2 h3
    · simp [SUCCESS, h1]
    · have : ¬ s.length = 64 := h2
      simp [h1, this]
    · have h64 : s.length = 64 := by omega
      have hall : s.all isAlnumChar = false := by
        rw [← hasAlnumRun64_length64 s h64]
        exact h3
      simp [h1, hall]
    · have h64 : s.length = 64 := by omega
      have hall : s.all isAlnumChar = true := by
        rw [← hasAlnumRun64_length64 s h64]
        exact Bool.of_not_eq_false h3
      simp [SUCCESS, h64, hall]

/-- Witness for C10 at a concrete input: 64 letters g, outside the hex
range, are accepted. -/
theorem c10_validatePaymentID_witness :
    ∃ r : WalletError,
      validatePaymentID (JSValue.str (List.replicate 64 'g')) (JSValue.bool true)
          = Except.ok r ∧ r.errorCode = WalletErrorCode.SUCCESS := by
  obtain ⟨r, h1, _, h3⟩ :=
    c10_validatePaymentID_characterisation (List.replicate 64 'g') true
  exact ⟨r, h1, h3.mpr (Or.inr (by decide))⟩

/-- Claim C7: the lock rule of isInputUnlocked (zero unlock time is
unlocked; unlock times at or above the 2^32 MAX_BLOCK_NUMBER threshold are
wall-clock seconds; lower ones are block heights compared against
currentHeight + 1), and the balance laws: the unlocked balance is the sum
of the unspent amounts whose input passes the predicate, and unlocked plus
locked equals the total of all unspent amounts. -/
theorem c7_unlock_rule_and_balance_law (u h now : Nat)
    (inputs : List TransactionInput) :
    MAX_BLOCK_NUMBER = 2 ^ 32
    ∧ (isInputUnlocked u h now = true
        ↔ (u = 0 ∨ (MAX_BLOCK_NUMBER ≤ u ∧ u ≤ now)
            ∨ (u < MAX_BLOCK_NUMBER ∧ u ≤ h + 1)))
    ∧ (getBalance inputs h now).1
        = ((inputs.filter fun i => isInputUnlocked i.unlockTime h now).map
            (fun i => i.amount)).sum
    ∧ (getBalance inputs h now).1 + (getBalance inputs h now).2
        = (inputs.map (fun i => i.amount)).sum := by
  refine ⟨by decide, ?_, rfl, ?_⟩
  · unfold isInputUnlocked
    split_ifs with h1 h2 <;> simp <;> omega
  · exact sum_map_filter_add_sum_map_filter_not _ _ inputs

/-! ## Block data model (per spec §3; the Types module is declaration-only
in the analysed sources) -/

/-- A key input of a raw transaction. -/
structure KeyInput where
  amount : Nat
  keyImage : List Char
  deriving DecidableEq

/-- A key output of a raw transaction. -/
structure KeyOutput where
  key : List Char
  amount : Nat
  globalIndex : Option Nat
  deriving DecidableEq

/-- A raw transaction as carried inside a block. -/
structure RawTransaction where
  hash : List Char
  transactionPublicKey : List Char
  unlockTime : Nat
  paymentID : List Char
  keyOutputs : List KeyOutput
  keyInputs : List KeyInput
  deriving DecidableEq

/-- A block as stored by the pipeline. -/
structure Block where
  blockHeight : Int
  blockHash : List Char
  blockTimestamp : Nat
  coinbaseTransaction : Option RawTransaction
  transactions : List RawTransaction
  deriving DecidableEq

/-- The daemon's top block, reported when the client is fully synced. -/
structure TopBlock where
  height : Int
  hash : List Char
  deriving DecidableEq

/-! ## Daemon client state (Daemon.js) -/

/-- The mutable numeric state of the Daemon client. -/
structure DaemonState where
  blockCount : Nat
  blocksPerDaemonRequest : Nat
  localDaemonBlockCount : Int
  networkBlockCount : Int
  peerCount : Int
  lastKnownHashrate : Int
  deriving DecidableEq

/-- The amount of blocks the network has (getNetworkBlockCount). -/
def Daemon.getNetworkBlockCount (d : DaemonState) : Int :=
  d.networkBlockCount

/-- The amount of blocks the connected daemon has (getLocalDaemonBlockCount). -/
def Daemon.getLocalDaemonBlockCount (d : DaemonState) : Int :=
  d.localDaemonBlockCount

/-- The daemon's answer to one /sync request, seen from the client:
the transport fails, the response is malformed (the post succeeded but
reading data.blocks throws), or a well-formed body arrives. -/
inductive SyncResponse where
  | transportError
  | malformed
  | ok (blocks : List Block) (synced : Bool) (topBlock : Option TopBlock)
  deriving DecidableEq

/-- getWalletSyncData from Daemon.js, as a function of the request's
outcome.  A transport error is caught inside the method: the batch size is
quartered rounding up and the pair of an empty block list and the boolean
false is returned.  On a well-formed response the batch size is doubled
toward the configured cap whenever it is degraded (the enclosing
data.blocks.length >= 0 check is always true), and the top block is passed
through only when synced is set and the top block's height and hash are
truthy.  The error case only escapes for a malformed body. -/
def Daemon.getWalletSyncData (d : DaemonState) (resp : SyncResponse) :
    DaemonState × Except Unit (List Block × Option TopBlock) :=
  match resp with
  | SyncResponse.transportError =>
      ({ d with blockCount := (d.blockCount + 3) / 4 }, Except.ok ([], none))
  | SyncResponse.malformed => (d, Except.error ())
  | SyncResponse.ok blocks synced topBlock =>
      let d2 :=
        if d.blockCount ≠ d.blocksPerDaemonRequest then
          { d with blockCount := min d.blocksPerDaemonRequest (d.blockCount * 2) }
        else d
      let result :=
        match topBlock with
        | some t =>
            if synced = true ∧ t.height ≠ 0 ∧ t.hash ≠ [] then some t else none
        | none => none
      (d2, Except.ok (blocks, result))

/-- The /info response body (fields read by updateDaemonInfo). -/
structure DaemonInfo where
  height : Int
  networkHeight : Int
  incomingConnections : Int
  outgoingConnections : Int
  hashrate : Int
  deriving DecidableEq

/-- updateDaemonInfo from Daemon.js, as a function of the /info outcome
(none models a failed request, which leaves the counts untouched).  The
stored network block count is decremented by one when positive; the local
daemon block count is stored unchanged. -/
def Daemon.updateDaemonInfo (d : DaemonState) (resp : Option DaemonInfo) :
    DaemonState :=
  match resp with
  | none => d
  | some info =>
      let d1 : DaemonState :=
        { d with localDaemonBlockCount := info.height,
                 networkBlockCount := info.networkHeight }
      let d2 : DaemonState :=
        if 0 < d1.networkBlockCount then
          { d1 with networkBlockCount := d1.networkBlockCount - 1 }
        else d1
      { d2 with peerCount := info.incomingConnections + info.outgoingConnections,
                lastKnownHashrate := info.hashrate }

/-- Modelled from the spec: the wallet facade is declaration-only in the
analysed sources; per spec §4.5 its synced threshold compares the wallet
height against the stored network block count. -/
def isSyncedCheck (walletHeight : Int) (d : DaemonState) : Prop :=
  d.networkBlockCount ≤ walletHeight

/-! ## Claims C3 and C9 -/

/-- Claim C3: batch-size dynamics of getWalletSyncData.  Starting from any
batch size between 1 and the configured cap, a successful request never
decreases the batch size and keeps it at most the cap, and a failed
request sets it to the ceiling of a quarter of the old value, which stays
at least 1. -/
theorem c3_batch_size_dynamics (d : DaemonState) (blocks : List Block)
    (synced : Bool) (top : Option TopBlock)
    (h1 : 1 ≤ d.blockCount) (h2 : d.blockCount ≤ d.blocksPerDaemonRequest) :
    (d.blockCount
        ≤ (Daemon.getWalletSyncData d (SyncResponse.ok blocks synced top)).1.blockCount
      ∧ (Daemon.getWalletSyncData d (SyncResponse.ok blocks synced top)).1.blockCount
        ≤ d.blocksPerDaemonRequest)
    ∧ (Daemon.getWalletSyncData d SyncResponse.transportError).1.blockCount
        = (d.blockCount + 3) / 4
    ∧ 1 ≤ (Daemon.getWalletSyncData d SyncResponse.transportError).1.blockCount := by
  refine ⟨?_, rfl, ?_⟩
  · by_cases hc : d.blockCount = d.blocksPerDaemonRequest
    · simp [Daemon.getWalletSyncData, hc]
    · simp only [Daemon.getWalletSyncData, hc]
      simp [hc]
      omega
  · rw [show (Daemon.getWalletSyncData d SyncResponse.transportError).1.blockCount
        = (d.blockCount + 3) / 4 from rfl]
    omega

/-- Witness for C3 at batch size 50 under cap 100: success raises to 100,
failure lowers to 13. -/
theorem c3_batch_size_dynamics_witness :
    (1 ≤ (50 : Nat)) ∧ ((50 : Nat) ≤ 100)
    ∧ (((50 : Nat)
          ≤ (Daemon.getWalletSyncData
              { blockCount := 50, blocksPerDaemonRequest := 100,
                localDaemonBlockCount := 0, networkBlockCount := 0,
                peerCount := 0, lastKnownHashrate := 0 }
              (SyncResponse.ok [] true none)).1.blockCount
        ∧ (Daemon.getWalletSyncData
              { blockCount := 50, blocksPerDaemonRequest := 100,
                localDaemonBlockCount := 0, networkBlockCount := 0,
                peerCount := 0, lastKnownHashrate := 0 }
              (SyncResponse.ok [] true none)).1.blockCount ≤ 100)
      ∧ (Daemon.getWalletSyncData
            { blockCount := 50, blocksPerDaemonRequest := 100,
              localDaemonBlockCount := 0, networkBlockCount := 0,
              peerCount := 0, lastKnownHashrate := 0 }
            SyncResponse.transportError).1.blockCount = (50 + 3) / 4
      ∧ 1 ≤ (Daemon.getWalletSyncData
            { blockCount := 50, blocksPerDaemonRequest := 100,
              localDaemonBlockCount := 0, networkBlockCount := 0,
              peerCount := 0, lastKnownHashrate := 0 }
            SyncResponse.transportError).1.blockCount) :=
  ⟨by decide, by decide,
    c3_batch_size_dynamics
      { blockCount := 50, blocksPerDaemonRequest := 100,
        localDaemonBlockCount := 0, networkBlockCount := 0,
        peerCount := 0, lastKnownHashrate := 0 }
      [] true none (by decide) (by decide)⟩

/-- Claim C9: after a successful updateDaemonInfo whose /info response
reports a positive networkHeight, getNetworkBlockCount returns the
reported network height minus one while getLocalDaemonBlockCount returns
the reported height unchanged, so the synced comparison is made against
the reported network height minus one. -/
theorem c9_network_height_decrement (d : DaemonState) (info : DaemonInfo)
    (hpos : 0 < info.networkHeight) :
    Daemon.getNetworkBlockCount (Daemon.updateDaemonInfo d (some info))
        = info.networkHeight - 1
    ∧ Daemon.getLocalDaemonBlockCount (Daemon.updateDaemonInfo d (some info))
        = info.height
    ∧ ∀ w : Int,
        isSyncedCheck w (Daemon.updateDaemonInfo d (some info))
          ↔ info.networkHeight - 1 ≤ w := by
  simp [Daemon.updateDaemonInfo, Daemon.getNetworkBlockCount,
    Daemon.getLocalDaemonBlockCount, isSyncedCheck, hpos]

/-- Witness for C9 at a reported network height of 50 and local height 100. -/
theorem c9_network_height_decrement_witness :
    Daemon.getNetworkBlockCount
        (Daemon.updateDaemonInfo
          { blockCount := 100, blocksPerDaemonRequest := 100,
            localDaemonBlockCount := 0, networkBlockCount := 0,
            peerCount := 0, lastKnownHashrate := 0 }
          (some { height := 100, networkHeight := 50,
                  incomingConnections := 1, outgoingConnections := 2,
                  hashrate := 7 })) = 50 - 1
    ∧ Daemon.getLocalDaemonBlockCount
        (Daemon.updateDaemonInfo
          { blockCount := 100, blocksPerDaemonRequest := 100,
            localDaemonBlockCount := 0, networkBlockCount := 0,
            peerCount := 0, lastKnownHashrate := 0 }
          (some { height := 100, networkHeight := 50,
                  incomingConnections := 1, outgoingConnections := 2,
                  hashrate := 7 })) = 100
    ∧ ∀ w : Int,
        isSyncedCheck w
            (Daemon.updateDaemonInfo
              { blockCount := 100, blocksPerDaemonRequest := 100,
                localDaemonBlockCount := 0, networkBlockCount := 0,
                peerCount := 0, lastKnownHashrate := 0 }
              (some { height := 100, networkHeight := 50,
                      incomingConnections := 1, outgoingConnections := 2,
                      hashrate := 7 }))
          ↔ 50 - 1 ≤ w :=
  c9_network_height_decrement
    { blockCount := 100, blocksPerDaemonRequest := 100,
      localDaemonBlockCount := 0, networkBlockCount := 0,
      peerCount := 0, lastKnownHashrate := 0 }
    { height := 100, networkHeight := 50,
      incomingConnections := 1, outgoingConnections := 2, hashrate := 7 }
    (by decide)

/-! ## Connection state and connect/disconnect events (Daemon.makeRequest) -/

/-- The connection-related state of the Daemon client. -/
structure ConnState where
  ssl : Bool
  sslDetermined : Bool
  connected : Bool
  deriving DecidableEq

/-- The two edge events makeRequest can emit. -/
inductive ConnEvent where
  | connect
  | disconnect
  deriving DecidableEq

/-- The connection state after the Daemon constructor: ssl defaults to
true and is fixed when the caller supplies it, and connected starts true
(the source comments that this makes an initial failure fire disconnect). -/
def Daemon.initialConnState (ssl : Option Bool) : ConnState :=
  { ssl := ssl.getD true, sslDetermined := ssl.isSome, connected := true }

/-- makeRequest from Daemon.js, as a function of whether an HTTPS attempt
and an HTTP attempt would succeed on this call.  With the protocol already
determined a single attempt is made; otherwise HTTPS is tried and HTTP is
the fallback.  Returns the new state, the emitted events, and whether the
call succeeded (a failed call throws to the caller). -/
def Daemon.makeRequest (s : ConnState) (httpsOk httpOk : Bool) :
    ConnState × List ConnEvent × Bool :=
  let firstOk := if s.sslDetermined then (if s.ssl then httpsOk else httpOk)
                 else httpsOk
  if firstOk then
    let s1 : ConnState :=
      if s.sslDetermined then s else { s with ssl := true, sslDetermined := true }
    ({ s1 with connected := true },
     if s.connected = false then [ConnEvent.connect] else [], true)
  else if s.sslDetermined then
    ({ s with connected := false },
     if s.connected = true then [ConnEvent.disconnect] else [], false)
  else if httpOk then
    ({ s with ssl := false, sslDetermined := true, connected := true },
     if s.connected = false then [ConnEvent.connect] else [], true)
  else
    ({ s with connected := false },
     if s.connected = true then [ConnEvent.disconnect] else [], false)

/-- The per-call event lists along a sequence of requests. -/
def Daemon.runRequests (s : ConnState) : List (Bool × Bool) → List (List ConnEvent)
  | [] => []
  | o :: os =>
      (Daemon.makeRequest s o.1 o.2).2.1
        :: Daemon.runRequests (Daemon.makeRequest s o.1 o.2).1 os

/-- The per-call success outcomes along a sequence of requests. -/
def Daemon.runSuccesses (s : ConnState) : List (Bool × Bool) → List Bool
  | [] => []
  | o :: os =>
      (Daemon.makeRequest s o.1 o.2).2.2
        :: Daemon.runSuccesses (Daemon.makeRequest s o.1 o.2).1 os

/-- The event stream the spec describes: given the previous contact
outcome, a Disconnect on each success-to-failure edge and a Connect on
each failure-to-success edge, and nothing otherwise. -/
def edgeEvents : Bool → List Bool → List (List ConnEvent)
  | _, [] => []
  | prev, b :: bs =>
      (if prev = true ∧ b = false then [ConnEvent.disconnect]
       else if prev = false ∧ b = true then [ConnEvent.connect]
       else []) :: edgeEvents b bs

/-- After any call, the stored connected flag equals the call's outcome. -/
theorem makeRequest_connected (s : ConnState) (a b : Bool) :
    (Daemon.makeRequest s a b).1.connected = (Daemon.makeRequest s a b).2.2 := by
  rcases s with ⟨sl, dt, cn⟩
  cases sl <;> cases dt <;> cases cn <;> cases a <;> cases b <;> rfl

/-- The events of one call are determined by the previous connected flag
and the call's outcome. -/
theorem makeRequest_events (s : ConnState) (a b : Bool) :
    (Daemon.makeRequest s a b).2.1
      = (if s.connected = true ∧ (Daemon.makeRequest s a b).2.2 = false
            then [ConnEvent.disconnect]
         else if s.connected = false ∧ (Daemon.makeRequest s a b).2.2 = true
            then [ConnEvent.connect]
         else []) := by
  rcases s with ⟨sl, dt, cn⟩
  cases sl <;> cases dt <;> cases cn <;> cases a <;> cases b <;> rfl

/-- Along any request trace, the emitted events are exactly the edge
events of the success sequence, seeded with the current connected flag. -/
theorem runRequests_eq_edgeEvents (t : List (Bool × Bool)) :
    ∀ s : ConnState,
      Daemon.runRequests s t = edgeEvents s.connected (Daemon.runSuccesses s t) := by
  induction t with
  | nil => intro s; rfl
  | cons o os ih =>
    intro s
    show (Daemon.makeRequest s o.1 o.2).2.1
          :: Daemon.runRequests (Daemon.makeRequest s o.1 o.2).1 os
        = edgeEvents s.connected
            ((Daemon.makeRequest s o.1 o.2).2.2
              :: Daemon.runSuccesses (Daemon.makeRequest s o.1 o.2).1 os)
    rw [edgeEvents, ih ((Daemon.makeRequest s o.1 o.2).1),
      makeRequest_connected, makeRequest_events]

/-- Claim C8 (amended): connect and disconnect are emitted exactly at edge
transitions of the per-call contact outcome, except that the connected
flag starts true, so the failure of the very first request does emit a
Disconnect.  The full event stream from the constructor state equals the
edge-event stream seeded with a previous outcome of true. -/
theorem c8_edge_events_from_initial_state (ssl : Option Bool)
    (t : List (Bool × Bool)) :
    (Daemon.initialConnState ssl).connected = true
    ∧ Daemon.runRequests (Daemon.initialConnState ssl) t
        = edgeEvents true (Daemon.runSuccesses (Daemon.initialConnState ssl) t) :=
  ⟨rfl, runRequests_eq_edgeEvents t (Daemon.initialConnState ssl)⟩

/-- Counterexample to C8 as stated: from the constructor state, before any
successful contact has ever occurred, the very first request's failure
already emits Disconnect. -/
theorem c8_first_failure_emits_disconnect :
    Daemon.runRequests (Daemon.initialConnState (some true)) [(false, false)]
      = [[ConnEvent.disconnect]] := by
  decide

/-! ## Synchronization status (modelled from the spec) -/

/-- Modelled from the spec: the SynchronizationStatus implementation is
declaration-only in the analysed sources.  Per spec §3 it holds the last
known block height, a dense recent tail of block hashes, and sparse
checkpoints. -/
structure SynchronizationStatus where
  lastKnownBlockHeight : Int
  lastKnownBlockHashes : List (List Char)
  blockHashCheckpoints : List (List Char)
  deriving DecidableEq

/-- Modelled from the spec: the single-height constructor used by reset
and rewind yields a status at that height with empty block-hash history
("reset: height=scan_height-1, empty history"). -/
def SynchronizationStatus.make (h : Int) : SynchronizationStatus :=
  { lastKnownBlockHeight := h, lastKnownBlockHashes := [], blockHashCheckpoints := [] }

/-- Modelled from the spec: storeBlockHash appends the processed
(height, hash) pair, keeping the dense tail at the last K=100 hashes and a
sparse checkpoint every C=5000 heights; afterwards the status height
equals the stored block height (spec §8). -/
def SynchronizationStatus.storeBlockHash (st : SynchronizationStatus)
    (blockHeight : Int) (blockHash : List Char) : SynchronizationStatus :=
  { lastKnownBlockHeight := blockHeight,
    lastKnownBlockHashes := (blockHash :: st.lastKnownBlockHashes).take 100,
    blockHashCheckpoints :=
      if blockHeight % 5000 = 0 then blockHash :: st.blockHashCheckpoints
      else st.blockHashCheckpoints }

/-- getHeight of the status. -/
def SynchronizationStatus.getHeight (st : SynchronizationStatus) : Int :=
  st.lastKnownBlockHeight

/-! ## Wallet synchronizer state (WalletSynchronizer.js) -/

/-- The state of the WalletSynchronizer relevant to downloading, dropping
and resetting blocks.  finishedFunc carries the deferred reset or rewind
(its scan height and scan timestamp); the daemon's numeric state is held
alongside because downloadBlocks reads and mutates it. -/
structure SyncState where
  daemon : DaemonState
  synchronizationStatus : SynchronizationStatus
  fetchingBlocks : Bool
  storedBlocks : List Block
  startHeight : Int
  startTimestamp : Int
  finishedFunc : Option (Int × Int)
  deriving DecidableEq

/-- getHeight of the synchronizer: the sync status height. -/
def SyncState.getHeight (s : SyncState) : Int :=
  s.synchronizationStatus.getHeight

/-- The body shared by reset and rewind: record the new scan point,
replace the sync status by a fresh one at scanHeight - 1, and wipe the
stored blocks. -/
def resetBody (s : SyncState) (scanHeight scanTimestamp : Int) : SyncState :=
  { s with startHeight := scanHeight,
           startTimestamp := scanTimestamp,
           synchronizationStatus := SynchronizationStatus.make (scanHeight - 1),
           storedBlocks := [] }

/-- reset from WalletSynchronizer.js: apply immediately unless a download
is in flight, in which case the mutation is deferred into finishedFunc. -/
def reset (s : SyncState) (scanHeight scanTimestamp : Int) : SyncState :=
  if s.fetchingBlocks then { s with finishedFunc := some (scanHeight, scanTimestamp) }
  else resetBody s scanHeight scanTimestamp

/-- rewind from WalletSynchronizer.js: identical to reset except that the
recorded scan timestamp is zero. -/
def rewind (s : SyncState) (scanHeight : Int) : SyncState :=
  if s.fetchingBlocks then { s with finishedFunc := some (scanHeight, 0) }
  else resetBody s scanHeight 0

/-- Run the deferred finishedFunc if one is queued: it applies the
deferred reset body, resolves the waiting promise, and clears itself. -/
def applyFinished (s : SyncState) : SyncState :=
  match s.finishedFunc with
  | none => s
  | some p => { resetBody s p.1 p.2 with finishedFunc := none }

/-- The response-handling part of downloadBlocks, from the point where the
in-flight getWalletSyncData call resolves (fetchingBlocks is true).
Mirrors the source's branches: the catch branch for a thrown error; the
fully-synced branch when a top block arrives with zero blocks (running
finishedFunc before recording the top block into the sync status); the
zero-blocks branch; and the append branch, which concatenates the received
blocks before finishedFunc runs.  Returns the state and the pair
(successOrBusy, shouldSleep). -/
def downloadBlocksResume (s0 : SyncState) (resp : SyncResponse) :
    SyncState × Bool × Bool :=
  let dr := Daemon.getWalletSyncData s0.daemon resp
  let s : SyncState := { s0 with daemon := dr.1 }
  match dr.2 with
  | Except.error _ =>
      let s1 := applyFinished s
      ({ s1 with fetchingBlocks := false }, false, true)
  | Except.ok (blocks, topBlock) =>
      match topBlock, blocks with
      | some t, [] =>
          let s1 := applyFinished s
          let s2 : SyncState :=
            if s1.storedBlocks.isEmpty then
              { s1 with synchronizationStatus :=
                  s1.synchronizationStatus.storeBlockHash t.height t.hash }
            else s1
          let s3 := applyFinished s2
          ({ s3 with fetchingBlocks := false }, true, true)
      | _, _ =>
          match blocks with
          | [] =>
              let s1 := applyFinished s
              ({ s1 with fetchingBlocks := false }, false, false)
          | b :: _ =>
              let s1 : SyncState :=
                if s.startTimestamp ≠ 0 then
                  { s with startTimestamp := 0, startHeight := b.blockHeight }
                else s
              let s2 : SyncState :=
                { s1 with storedBlocks := s1.storedBlocks ++ blocks }
              let s3 := applyFinished s2
              ({ s3 with fetchingBlocks := false }, true, false)

/-- downloadBlocks from WalletSynchronizer.js: busy-return when a fetch is
already in flight, early return when the daemon is behind the wallet, and
otherwise the request is issued and its resolution handled by
downloadBlocksResume. -/
def downloadBlocks (s : SyncState) (resp : SyncResponse) :
    SyncState × Bool × Bool :=
  if s.fetchingBlocks then (s, true, false)
  else
    let s1 : SyncState := { s with fetchingBlocks := true }
    if s1.daemon.localDaemonBlockCount < s1.getHeight then
      ({ s1 with fetchingBlocks := false }, true, true)
    else downloadBlocksResume s1 resp

/-- dropBlock from WalletSynchronizer.js: pop the front stored block and
record it into the sync status only when both the height and the hash
match (the possibly triggered non-awaited refill touches no other part of
this state). -/
def dropBlock (s : SyncState) (blockHeight : Int) (blockHash : List Char) :
    SyncState :=
  match s.storedBlocks with
  | b :: rest =>
      if b.blockHeight = blockHeight ∧ b.blockHash = blockHash then
        { s with storedBlocks := rest,
                 synchronizationStatus :=
                   s.synchronizationStatus.storeBlockHash blockHeight blockHash }
      else s
  | [] => s

/-! ## Concrete states for witnesses and counterexamples -/

/-- A concrete daemon state. -/
def exampleDaemon : DaemonState :=
  { blockCount := 100, blocksPerDaemonRequest := 100,
    localDaemonBlockCount := 2000, networkBlockCount := 2000,
    peerCount := 0, lastKnownHashrate := 0 }

/-- A concrete content-free block at the given height and hash. -/
def exampleBlock (h : Int) (hash : List Char) : Block :=
  { blockHeight := h, blockHash := hash, blockTimestamp := 0,
    coinbaseTransaction := none, transactions := [] }

/-- A concrete idle synchronizer state. -/
def exampleSync : SyncState :=
  { daemon := exampleDaemon,
    synchronizationStatus :=
      { lastKnownBlockHeight := 500, lastKnownBlockHashes := [],
        blockHashCheckpoints := [] },
    fetchingBlocks := false, storedBlocks := [],
    startHeight := 0, startTimestamp := 0, finishedFunc := none }

/-- A concrete idle synchronizer state with recorded block-hash history. -/
def exampleSyncHist : SyncState :=
  { daemon := exampleDaemon,
    synchronizationStatus :=
      { lastKnownBlockHeight := 41,
        lastKnownBlockHashes := [[ 'a' ], [ 'b' ]],
        blockHashCheckpoints := [[ 'c' ]] },
    fetchingBlocks := false, storedBlocks := [],
    startHeight := 0, startTimestamp := 0, finishedFunc := none }

/-- A concrete synchronizer state with a download in flight. -/
def exampleSyncFetching : SyncState :=
  { daemon := exampleDaemon,
    synchronizationStatus :=
      { lastKnownBlockHeight := 500, lastKnownBlockHashes := [],
        blockHashCheckpoints := [] },
    fetchingBlocks := true, storedBlocks := [exampleBlock 500 [ 's' ]],
    startHeight := 0, startTimestamp := 0, finishedFunc := none }

/-- A concrete state whose stored-block queue holds the same block twice. -/
def exampleSyncDup : SyncState :=
  { daemon := exampleDaemon,
    synchronizationStatus :=
      { lastKnownBlockHeight := 4, lastKnownBlockHashes := [],
        blockHashCheckpoints := [] },
    fetchingBlocks := false,
    storedBlocks := [exampleBlock 5 [ 'x' ], exampleBlock 5 [ 'x' ]],
    startHeight := 0, startTimestamp := 0, finishedFunc := none }

/-- A concrete state whose stored-block queue holds two distinct blocks. -/
def exampleSyncTwo : SyncState :=
  { daemon := exampleDaemon,
    synchronizationStatus :=
      { lastKnownBlockHeight := 4, lastKnownBlockHashes := [],
        blockHashCheckpoints := [] },
    fetchingBlocks := false,
    storedBlocks := [exampleBlock 5 [ 'x' ], exampleBlock 6 [ 'y' ]],
    startHeight := 0, startTimestamp := 0, finishedFunc := none }

/-! ## Claim C2 -/

/-- Claim C2 (amended): a transport failure of the sync-data request is
caught inside getWalletSyncData, which quarters the batch size rounding up
(ceiling of old/4, floor 1) and returns an empty block list, so
downloadBlocks takes its zero-blocks path, clears the fetching flag and
returns (false, false) — not (false, true), and the batch size is not
halved. -/
theorem c2_transport_failure_behaviour (s : SyncState)
    (hf : s.fetchingBlocks = false)
    (hh : ¬ s.daemon.localDaemonBlockCount < s.getHeight) :
    (downloadBlocks s SyncResponse.transportError).1.daemon.blockCount
        = (s.daemon.blockCount + 3) / 4
    ∧ (downloadBlocks s SyncResponse.transportError).1.fetchingBlocks = false
    ∧ (downloadBlocks s SyncResponse.transportError).2.1 = false
    ∧ (downloadBlocks s SyncResponse.transportError).2.2 = false := by
  have hh2 : ¬ s.daemon.localDaemonBlockCount
      < s.synchronizationStatus.lastKnownBlockHeight := hh
  cases hfin : s.finishedFunc <;>
    simp [downloadBlocks, downloadBlocksResume, Daemon.getWalletSyncData,
      applyFinished, resetBody, SyncState.getHeight,
      SynchronizationStatus.getHeight, hf, hh2, hfin]

/-- Counterexample to C2 as stated: from batch size 100 the failure
lowers the batch to 25, not to the claimed ceiling of 100/2 = 50, and the
returned pair is (false, false), not (false, true). -/
theorem c2_transport_failure_counterexample :
    (downloadBlocks exampleSync SyncResponse.transportError).1.daemon.blockCount = 25
    ∧ (downloadBlocks exampleSync SyncResponse.transportError).1.daemon.blockCount ≠ 50
    ∧ (downloadBlocks exampleSync SyncResponse.transportError).2.1 = false
    ∧ (downloadBlocks exampleSync SyncResponse.transportError).2.2 = false := by
  decide

/-- Witness for C2 (amended) at the concrete idle state. -/
theorem c2_transport_failure_witness :
    (downloadBlocks exampleSync SyncResponse.transportError).1.daemon.blockCount
      = (exampleSync.daemon.blockCount + 3) / 4 :=
  (c2_transport_failure_behaviour exampleSync (by decide) (by decide)).1

/-! ## Claim C4 -/

/-- Claim C4 (amended): rewind(h), applied immediately when no download is
in flight, empties the stored blocks and installs a fresh synchronization
status of height h - 1 with empty block-hash history — the same status
reset installs; it does not preserve the previously recorded history. -/
theorem c4_rewind_installs_empty_history (s : SyncState) (h : Int)
    (hf : s.fetchingBlocks = false) :
    (rewind s h).storedBlocks = []
    ∧ (rewind s h).synchronizationStatus = SynchronizationStatus.make (h - 1)
    ∧ (rewind s h).synchronizationStatus.getHeight = h - 1
    ∧ (rewind s h).synchronizationStatus.lastKnownBlockHashes = []
    ∧ (rewind s h).synchronizationStatus.blockHashCheckpoints = []
    ∧ ∀ ts : Int,
        (rewind s h).synchronizationStatus = (reset s h ts).synchronizationStatus := by
  simp [rewind, reset, resetBody, hf, SynchronizationStatus.make,
    SynchronizationStatus.getHeight]

/-- Counterexample to C4 as stated: a state with recorded block-hash
history loses all of it on rewind(42), ending with the same empty-history
status reset installs. -/
theorem c4_rewind_counterexample :
    exampleSyncHist.synchronizationStatus.lastKnownBlockHashes ≠ []
    ∧ exampleSyncHist.synchronizationStatus.blockHashCheckpoints ≠ []
    ∧ (rewind exampleSyncHist 42).synchronizationStatus.lastKnownBlockHashes = []
    ∧ (rewind exampleSyncHist 42).synchronizationStatus.blockHashCheckpoints = []
    ∧ (rewind exampleSyncHist 42).synchronizationStatus
        = (reset exampleSyncHist 42 0).synchronizationStatus := by
  decide

/-- Witness for C4 (amended) at the concrete history-carrying state. -/
theorem c4_rewind_witness :
    (rewind exampleSyncHist 42).synchronizationStatus
      = SynchronizationStatus.make (42 - 1) :=
  (c4_rewind_installs_empty_history exampleSyncHist 42 (by decide)).2.1

/-! ## Claim C5 -/

/-- Claim C5 (amended): a reset(h, ts) issued while a download is in
flight is deferred into finishedFunc; once the in-flight call resolves —
whatever its outcome — the stored blocks are empty (every block returned
by the in-flight call is discarded), the fetching flag and the deferred
callback are cleared, and the synchronization status is the fresh one of
height h - 1, except that a fully-synced resolution carrying a top block
and zero blocks immediately records that top block into the fresh status,
so its height becomes the top block's height rather than h - 1. -/
theorem c5_deferred_reset (s : SyncState) (h ts : Int) (resp : SyncResponse)
    (hf : s.fetchingBlocks = true) :
    (downloadBlocksResume (reset s h ts) resp).1.storedBlocks = []
    ∧ (downloadBlocksResume (reset s h ts) resp).1.fetchingBlocks = false
    ∧ (downloadBlocksResume (reset s h ts) resp).1.finishedFunc = none
    ∧ ((downloadBlocksResume (reset s h ts) resp).1.synchronizationStatus
          = SynchronizationStatus.make (h - 1)
        ∨ ∃ t : TopBlock,
            resp = SyncResponse.ok [] true (some t)
            ∧ (downloadBlocksResume (reset s h ts) resp).1.synchronizationStatus
                = (SynchronizationStatus.make (h - 1)).storeBlockHash t.height t.hash) := by
  have hs1 : reset s h ts = { s with finishedFunc := some (h, ts) } := by
    simp [reset, hf]
  rw [hs1]
  cases resp with
  | transportError =>
      refine ⟨?_, ?_, ?_, Or.inl ?_⟩ <;>
        simp [downloadBlocksResume, Daemon.getWalletSyncData, applyFinished,
          resetBody]
  | malformed =>
      refine ⟨?_, ?_, ?_, Or.inl ?_⟩ <;>
        simp [downloadBlocksResume, Daemon.getWalletSyncData, applyFinished,
          resetBody]
  | ok blocks synced top =>
      cases top with
      | none =>
          cases blocks with
          | nil =>
              refine ⟨?_, ?_, ?_, Or.inl ?_⟩ <;>
                simp [downloadBlocksResume, Daemon.getWalletSyncData,
                  applyFinished, resetBody]
          | cons b bs =>
              by_cases hts : s.startTimestamp = 0 <;>
                refine ⟨?_, ?_, ?_, Or.inl ?_⟩ <;>
                  simp [downloadBlocksResume, Daemon.getWalletSyncData,
                    applyFinished, resetBody, hts]
      | some t =>
          by_cases hc : synced = true ∧ t.height ≠ 0 ∧ t.hash ≠ []
          · cases blocks with
            | nil =>
                refine ⟨?_, ?_, ?_, Or.inr ⟨t, ?_, ?_⟩⟩ <;>
                  simp [downloadBlocksResume, Daemon.getWalletSyncData,
                    applyFinished, resetBody, hc, hc.1]
            | cons b bs =>
                by_cases hts : s.startTimestamp = 0 <;>
                  refine ⟨?_, ?_, ?_, Or.inl ?_⟩ <;>
                    simp [downloadBlocksResume, Daemon.getWalletSyncData,
                      applyFinished, resetBody, hc, hts]
          · cases blocks with
            | nil =>
                refine ⟨?_, ?_, ?_, Or.inl ?_⟩ <;>
                  simp [downloadBlocksResume, Daemon.getWalletSyncData,
                    applyFinished, resetBody, hc]
            | cons b bs =>
                by_cases hts : s.startTimestamp = 0 <;>
                  refine ⟨?_, ?_, ?_, Or.inl ?_⟩ <;>
                    simp [downloadBlocksResume, Daemon.getWalletSyncData,
                      applyFinished, resetBody, hc, hts]

/-- Counterexample to C5 as stated: reset(1000, 0) deferred across an
in-flight call that resolves fully synced with top block height 1200 and
zero blocks leaves the synchronization status at height 1200, not at the
claimed 1000 - 1 = 999. -/
theorem c5_deferred_reset_counterexample :
    (downloadBlocksResume (reset exampleSyncFetching 1000 0)
        (SyncResponse.ok [] true
          (some { height := 1200, hash := [ 't' ] }))).1.synchronizationStatus.lastKnownBlockHeight
      = 1200
    ∧ (downloadBlocksResume (reset exampleSyncFetching 1000 0)
        (SyncResponse.ok [] true
          (some { height := 1200, hash := [ 't' ] }))).1.synchronizationStatus.lastKnownBlockHeight
      ≠ 999
    ∧ (downloadBlocksResume (reset exampleSyncFetching 1000 0)
        (SyncResponse.ok [] true
          (some { height := 1200, hash := [ 't' ] }))).1.storedBlocks = [] := by
  decide

/-- Witness for C5 (amended): the deferred reset applied across a failed
in-flight call leaves no stored blocks. -/
theorem c5_deferred_reset_witness :
    (downloadBlocksResume (reset exampleSyncFetching 1000 0)
        SyncResponse.transportError).1.storedBlocks = [] :=
  (c5_deferred_reset exampleSyncFetching 1000 0 SyncResponse.transportError
    (by decide)).1

/-! ## Claim C6 -/

/-- Claim C6 (amended): dropBlock(height, hash) pops the front stored
block and records (height, hash) into the synchronization status if and
only if the queue is non-empty and its front matches both the height and
the hash; and whenever the queue does not start with two identical
matching blocks (as when stored heights are strictly increasing), calling
dropBlock twice with the same arguments mutates the state only once.  On a
queue whose first two entries both match the arguments, however, the
second call pops again. -/
theorem c6_drop_block (s : SyncState) (h : Int) (hash : List Char) :
    (∀ b rest, s.storedBlocks = b :: rest → b.blockHeight = h → b.blockHash = hash →
        dropBlock s h hash
          = { s with storedBlocks := rest,
                     synchronizationStatus :=
                       s.synchronizationStatus.storeBlockHash h hash })
    ∧ (∀ b rest, s.storedBlocks = b :: rest →
          ¬(b.blockHeight = h ∧ b.blockHash = hash) → dropBlock s h hash = s)
    ∧ (s.storedBlocks = [] → dropBlock s h hash = s)
    ∧ ((∀ b0 b1 rest, s.storedBlocks = b0 :: b1 :: rest →
          b0.blockHeight = h → b0.blockHash = hash →
          ¬(b1.blockHeight = h ∧ b1.blockHash = hash)) →
        dropBlock (dropBlock s h hash) h hash = dropBlock s h hash) := by
  refine ⟨?_, ?_, ?_, ?_⟩
  · intro b rest he h1 h2
    simp [dropBlock, he, h1, h2]
  · intro b rest he hm
    simp [dropBlock, he, hm]
  · intro he
    simp [dropBlock, he]
  · intro hsafe
    cases hl : s.storedBlocks with
    | nil => simp [dropBlock, hl]
    | cons b rest =>
      by_cases hm : b.blockHeight = h ∧ b.blockHash = hash
      · have hdrop : dropBlock s h hash
            = { s with storedBlocks := rest,
                       synchronizationStatus :=
                         s.synchronizationStatus.storeBlockHash h hash } := by
          simp [dropBlock, hl, hm]
        rw [hdrop]
        cases hr : rest with
        | nil => simp [dropBlock]
        | cons b1 rest1 =>
          have hb1 : ¬(b1.blockHeight = h ∧ b1.blockHash = hash) := by
            apply hsafe b b1 rest1
            · rw [hl, hr]
            · exact hm.1
            · exact hm.2
          simp [dropBlock, hb1]
      · have hdrop : dropBlock s h hash = s := by
          simp [dropBlock, hl, hm]
        rw [hdrop, hdrop]

/-- Counterexample to C6 as stated: on a queue holding the same
(height, hash) block twice, the second identical dropBlock call pops
again, so the two calls mutate the state twice. -/
theorem c6_drop_block_counterexample :
    dropBlock (dropBlock exampleSyncDup 5 [ 'x' ]) 5 [ 'x' ]
        ≠ dropBlock exampleSyncDup 5 [ 'x' ]
    ∧ (dropBlock exampleSyncDup 5 [ 'x' ]).storedBlocks = [exampleBlock 5 [ 'x' ]]
    ∧ (dropBlock (dropBlock exampleSyncDup 5 [ 'x' ]) 5 [ 'x' ]).storedBlocks = [] := by
  decide

/-- Witness for C6 (amended): on a queue of two distinct blocks the second
identical call is a no-op. -/
theorem c6_drop_block_witness :
    dropBlock (dropBlock exampleSyncTwo 5 [ 'x' ]) 5 [ 'x' ]
      = dropBlock exampleSyncTwo 5 [ 'x' ] :=
  (c6_drop_block exampleSyncTwo 5 [ 'x' ]).2.2.2 (by
    intro b0 b1 rest he _ _
    have hb1 : exampleBlock 6 [ 'y' ] = b1 := by
      simp [exampleSyncTwo] at he
      exact he.2.1
    rw [← hb1]
    decide)

/-! ## Cancelled-transaction fail counting
(WalletSynchronizer.findCancelledTransactions) -/

/-- findCancelledTransactions from WalletSynchronizer.js, as a function of
the daemon's reply (the list of hashes reported missing).  After the
empty-argument early return, the first loop walks the fail-count map in
insertion order: a still-missing hash at count 10 is pushed to the removal
list and dropped, a still-missing hash below 10 is incremented, and a hash
no longer missing is dropped.  The second loop appends every missing hash
the map does not track with count 1 — including one removed moments
earlier in the first loop. -/
def findCancelledTransactions (transactionHashes : List (List Char))
    (failCounts : List (List Char × Nat)) (cancelled : List (List Char)) :
    List (List Char) × List (List Char × Nat) :=
  if transactionHashes.isEmpty then ([], failCounts)
  else
    let toRemove := failCounts.filterMap fun p =>
      if p.1 ∈ cancelled ∧ p.2 = 10 then some p.1 else none
    let updated := failCounts.filterMap fun p =>
      if p.1 ∈ cancelled then
        if p.2 = 10 then none else some (p.1, p.2 + 1)
      else none
    let withNew := cancelled.foldl
      (fun m hsh => if hsh ∈ m.map Prod.fst then m else m ++ [(hsh, 1)]) updated
    (toRemove, withNew)

/-- The fail-count map after k consecutive responses reporting the single
tracked hash h as missing, starting from the empty map. -/
def missState (h : List Char) : Nat → List (List Char × Nat)
  | 0 => []
  | k + 1 => (findCancelledTransactions [h] (missState h k) [h]).2

/-- The to-remove list produced by the k-th consecutive missing response
for the single tracked hash h. -/
def missRemoved (h : List Char) : Nat → List (List Char)
  | 0 => []
  | k + 1 => (findCancelledTransactions [h] (missState h k) [h]).1

/-- The fail count stored after k consecutive missing responses: k itself
up to 10, then cycling 1..10 with period 10 after each removal re-tracks
the hash at 1. -/
def consecutiveMissVal (k : Nat) : Nat :=
  if k ≤ 10 then k else (k - 11) % 10 + 1

/-- A first missing response records the unknown hash at count 1. -/
theorem fct_first_miss (h : List Char) :
    findCancelledTransactions [h] [] [h] = ([], [(h, 1)]) := rfl

/-- A response in which the tracked hash is found drops it from the map. -/
theorem fct_found (h : List Char) (c : Nat) :
    findCancelledTransactions [h] [(h, c)] [] = ([], []) := rfl

/-- A missing response on a tracked hash: removal and re-tracking at 1
when the stored count is 10, otherwise an increment. -/
theorem fct_miss (h : List Char) (c : Nat) :
    findCancelledTransactions [h] [(h, c)] [h]
      = if c = 10 then ([h], [(h, 1)]) else ([], [(h, c + 1)]) := by
  by_cases hc : c = 10 <;> simp [findCancelledTransactions, hc]

/-- The recurrence of the stored fail count under consecutive misses. -/
theorem consecutiveMissVal_succ (k : Nat) :
    consecutiveMissVal (k + 1)
      = if consecutiveMissVal k = 10 then 1 else consecutiveMissVal k + 1 := by
  unfold consecutiveMissVal
  split_ifs <;> omega

/-- Closed form of the fail-count map under consecutive misses. -/
theorem missState_closed (h : List Char) (k : Nat) :
    missState h k = if k = 0 then [] else [(h, consecutiveMissVal k)] := by
  induction k with
  | zero => rfl
  | succ k ih =>
    show (findCancelledTransactions [h] (missState h k) [h]).2 = _
    rw [ih]
    by_cases hk : k = 0
    · subst hk
      rw [if_pos rfl, fct_first_miss]
      simp [consecutiveMissVal]
    · rw [if_neg hk, fct_miss]
      simp only [Nat.succ_ne_zero, if_false]
      rw [consecutiveMissVal_succ k]
      split_ifs <;> simp

/-- The k-th consecutive missing response removes the hash exactly when
the stored count has reached 10. -/
theorem missRemoved_closed (h : List Char) (k : Nat) :
    missRemoved h (k + 1) = if consecutiveMissVal k = 10 then [h] else [] := by
  show (findCancelledTransactions [h] (missState h k) [h]).1 = _
  rw [missState_closed]
  by_cases hk : k = 0
  · subst hk
    rw [if_pos rfl, fct_first_miss]
    simp [consecutiveMissVal]
  · rw [if_neg hk, fct_miss]
    split_ifs <;> simp

/-- Claim C1 (amended): starting from an untracked hash, the n-th
consecutive missing response returns h in the to-remove list iff n ≥ 11
and n ≡ 1 (mod 10): the first miss records count 1, nine further misses
raise it to 10, and the eleventh removes — and, because the removing
response immediately re-tracks the hash at count 1, removal recurs every
10 further uninterrupted misses.  A found response untracks the hash
(resetting the counter), and a newly-unknown missing hash starts at
count 1. -/
theorem c1_cancellation_threshold (h : List Char) (k : Nat) :
    (missRemoved h (k + 1) = [h] ↔ (11 ≤ k + 1 ∧ (k + 1) % 10 = 1))
    ∧ (missRemoved h (k + 1) = [h] ∨ missRemoved h (k + 1) = [])
    ∧ (∀ c : Nat, (findCancelledTransactions [h] [(h, c)] []).2 = [])
    ∧ (findCancelledTransactions [h] [] [h]).2 = [(h, 1)] := by
  have hchar : missRemoved h (k + 1) = [h] ↔ consecutiveMissVal k = 10 := by
    rw [missRemoved_closed]
    split_ifs with hv <;> simp [hv]
  have harith : consecutiveMissVal k = 10 ↔ (11 ≤ k + 1 ∧ (k + 1) % 10 = 1) := by
    unfold consecutiveMissVal
    split_ifs <;> omega
  refine ⟨hchar.trans harith, ?_, ?_, ?_⟩
  · rw [missRemoved_closed]
    split_ifs <;> simp
  · intro c
    rw [fct_found]
  · rw [fct_first_miss]

/-- Counterexample to C1 as stated: after exactly 10 consecutive missing
responses the hash has not been removed (its stored count is 10); removal
happens only on the 11th. -/
theorem c1_cancellation_counterexample :
    missRemoved [ 'a' ] 10 = []
    ∧ missState [ 'a' ] 10 = [([ 'a' ], 10)]
    ∧ missRemoved [ 'a' ] 11 = [[ 'a' ]] := by
  decide

end QbitWallet
